import Mathlib

/-!
Shallow embedding of `src/weather.py`, a command-line weather client: argument data,
credential loading from a parsed configuration, request-URL construction with
percent-encoding, HTTP outcome handling, JSON decoding, and the styled presenter.
Machine-facing effects (reading `secrets.ini`, the HTTP GET, writing to standard
output, `sys.exit`) are made explicit: configuration state and the transport are
passed in as values, and each code path returns the text it wrote together with its
process-level result.
-/

/-- Python exceptions the program can raise; an uncaught one aborts the process with
exit status 1. -/
inductive PyError where
  | keyError (k : String)
  | indexError
  | typeError
  | attrError
deriving DecidableEq

/-- Decoded JSON values, as produced by the `json` module. Numbers keep the literal
token they were parsed from; the payloads the claims exercise use literals such as
`18.5` whose Python `str()` equals the literal. -/
inductive Json where
  | null
  | bool (b : Bool)
  | num (lit : String)
  | str (s : String)
  | arr (xs : List Json)
  | obj (fields : List (String × Json))

/-- Left brace character, kept out of string literals. -/
def lbrace : Char := Char.ofNat 123

/-- Right brace character, kept out of string literals. -/
def rbrace : Char := Char.ofNat 125

/-- Apostrophe character. -/
def apos : Char := Char.ofNat 39

/-- Apostrophe as a one-character string. -/
def aposS : String := String.mk [apos]

/-- Modelled from the spec: `weather.py` line 7 imports a module `style` whose source
is not under `src/`. Per §4.5 and §9 of the spec the styling consists of a
column-alignment width and ANSI color codes written to standard output around the
fields; §8 requires the rendered line to contain the city and country contiguously as
`<city>, <country>`, so the alignment width is 0 (centering to width 0 leaves a string
unchanged). -/
def PADDING : Nat := 0

/-- Modelled from the spec: ANSI reverse-video escape code used by the console
decoration (§9). -/
def REVERSE : String := "\x1b[;7m"

/-- Modelled from the spec: ANSI red escape code used by the console decoration. -/
def RED : String := "\x1b[1;31m"

/-- Modelled from the spec: ANSI reset escape code used by the console decoration. -/
def RESET : String := "\x1b[0m"

/-- Modelled from the spec: `style.change_color(c)` writes the escape code `c` to
standard output; modelled as the text it appends to the output stream. -/
def change_color (color : String) : String := color

/-- Characters `urllib.parse.quote_plus` leaves unescaped: alphanumerics and
`-`, `.`, `_`, `~`. -/
def isSafeChar (c : Char) : Bool :=
  c.isAlphanum || c = '-' || c = '.' || c = '_' || c = '~'

/-- Uppercase hexadecimal digit, as used by percent-encoding. -/
def hexDigit (n : Nat) : Char := "0123456789ABCDEF".data.getD n 'F'

/-- The UTF-8 bytes of a character (as natural numbers), matching how Python encodes a
`str` before percent-encoding it. -/
def utf8Bytes (c : Char) : List Nat :=
  let n := c.toNat
  if n < 0x80 then [n]
  else if n < 0x800 then [0xC0 + n / 0x40, 0x80 + n % 0x40]
  else if n < 0x10000 then [0xE0 + n / 0x1000, 0x80 + n / 0x40 % 0x40, 0x80 + n % 0x40]
  else [0xF0 + n / 0x40000, 0x80 + n / 0x1000 % 0x40, 0x80 + n / 0x40 % 0x40, 0x80 + n % 0x40]

/-- Behavior of `urllib.parse.quote_plus` on one character: safe characters pass through, a space
becomes `+`, and every other character is `%XX`-escaped byte by byte. -/
def quoteChar (c : Char) : List Char :=
  if isSafeChar c then [c]
  else if c = ' ' then ['+']
  else ((utf8Bytes c).map (fun b => ['%', hexDigit (b / 16), hexDigit (b % 16)])).flatten

/-- Python `urllib.parse.quote_plus` (used at weather.py line 43). -/
def quote_plus (s : String) : String := String.mk ((s.data.map quoteChar).flatten)

/-- Parsed `secrets.ini` contents: sections, each holding key/value pairs. A missing
file parses as the empty configuration, since `ConfigParser.read` silently ignores
missing files. -/
abbrev Config : Type := List (String × List (String × String))

/-- Function `_get_api_key` (weather.py lines 75-87): reads `config` (the parsed `secrets.ini`),
then evaluates the subscripts `config[section][key]`, each of which raises an uncaught
`KeyError` when absent. -/
def _get_api_key (config : Config) : Except PyError String :=
  match List.lookup "openweather" config with
  | none => Except.error (PyError.keyError "openweather")
  | some sect =>
    match List.lookup "api_key" sect with
    | none => Except.error (PyError.keyError "api_key")
    | some v => Except.ok v

def BASE_WEATHER_API_URL : String := "http://api.openweathermap.org/data/2.5/weather"

/-- The URL construction of `build_weather_query` (weather.py lines 42-48), as a
function of the city tokens, the imperial flag, and the API key it fetched. -/
def build_weather_query_url (city_input : List String) (imperial : Bool)
    (api_key : String) : String :=
  let city_name := String.intercalate " " city_input
  let url_encoded_city_name := quote_plus city_name
  let units := if imperial then "imperial" else "metric"
  BASE_WEATHER_API_URL ++ "?q=" ++ url_encoded_city_name ++ "&units=" ++ units
    ++ "&appid=" ++ api_key

/-- Function `build_weather_query` (weather.py lines 31-49): fetches the API key from the
configuration state, then builds the request URL. -/
def build_weather_query (city_input : List String) (imperial : Bool)
    (config : Config) : Except PyError String :=
  match _get_api_key config with
  | Except.error e => Except.error e
  | Except.ok api_key => Except.ok (build_weather_query_url city_input imperial api_key)

/-- JSON whitespace accepted by `json.loads`. -/
def isJsonWs (c : Char) : Bool := c = ' ' || c = '\t' || c = '\n' || c = '\r'

def skipWs (cs : List Char) : List Char := cs.dropWhile isJsonWs

/-- Does `pat` occur at the start of the second list? -/
def startsWithChars : List Char → List Char → Bool
  | [], _ => true
  | _ :: _, [] => false
  | a :: as, b :: bs => a == b && startsWithChars as bs

/-- Single-character JSON string escapes. -/
def escChar (e : Char) : Option Char :=
  if e = '"' || e = '\\' || e = '/' then some e
  else if e = 'b' then some (Char.ofNat 8)
  else if e = 'f' then some (Char.ofNat 12)
  else if e = 'n' then some (Char.ofNat 10)
  else if e = 'r' then some (Char.ofNat 13)
  else if e = 't' then some (Char.ofNat 9)
  else none

/-- Value of one hexadecimal digit character. -/
def hexVal (c : Char) : Option Nat :=
  if c.isDigit then some (c.toNat - 48)
  else if 65 ≤ c.toNat && c.toNat ≤ 70 then some (c.toNat - 55)
  else if 97 ≤ c.toNat && c.toNat ≤ 102 then some (c.toNat - 87)
  else none

/-- Parse the body of a JSON string literal after the opening quote, handling the
escape sequences `json.loads` accepts and rejecting raw control characters
(`strict=True`). -/
def parseStringChars : List Char → Option (List Char × List Char)
  | [] => none
  | c :: cs =>
    if c = '"' then some ([], cs)
    else if c = '\\' then
      match cs with
      | 'u' :: h1 :: h2 :: h3 :: h4 :: cs2 =>
        match hexVal h1, hexVal h2, hexVal h3, hexVal h4 with
        | some a, some b, some c3, some d =>
          match parseStringChars cs2 with
          | some (acc, rest) =>
            some (Char.ofNat (a * 4096 + b * 256 + c3 * 16 + d) :: acc, rest)
          | none => none
        | _, _, _, _ => none
      | e :: cs2 =>
        match escChar e with
        | some ec =>
          match parseStringChars cs2 with
          | some (acc, rest) => some (ec :: acc, rest)
          | none => none
        | none => none
      | [] => none
    else if c.toNat < 32 then none
    else
      match parseStringChars cs with
      | some (acc, rest) => some (c :: acc, rest)
      | none => none

def spanDigits (cs : List Char) : List Char × List Char :=
  (cs.takeWhile Char.isDigit, cs.dropWhile Char.isDigit)

/-- Parse a JSON number token, following the regex `json.decoder.NUMBER_RE`:
`-?(0|[1-9][0-9]*)(\.[0-9]+)?([eE][-+]?[0-9]+)?`; returns the token characters and
the remaining input. -/
def parseNumberTok (cs : List Char) : Option (List Char × List Char) :=
  let signed :=
    match cs with
    | c :: rest => if c = '-' then (['-'], rest) else (([] : List Char), cs)
    | [] => ([], cs)
  let sign := signed.1
  let cs1 := signed.2
  let intPart :=
    match cs1 with
    | [] => none
    | c :: rest =>
      if c = '0' then some (['0'], rest)
      else if c.isDigit then
        let ds := spanDigits rest
        some (c :: ds.1, ds.2)
      else none
  match intPart with
  | none => none
  | some (ip, cs2) =>
    let fracPart :=
      match cs2 with
      | c :: rest =>
        if c = '.' then
          let ds := spanDigits rest
          if ds.1.isEmpty then (([] : List Char), cs2) else ('.' :: ds.1, ds.2)
        else (([] : List Char), cs2)
      | [] => (([] : List Char), cs2)
    let fp := fracPart.1
    let cs3 := fracPart.2
    let expPart :=
      match cs3 with
      | c :: rest =>
        if c = 'e' || c = 'E' then
          match rest with
          | s :: rest2 =>
            if s = '+' || s = '-' then
              let ds := spanDigits rest2
              if ds.1.isEmpty then (([] : List Char), cs3) else (c :: s :: ds.1, ds.2)
            else
              let ds := spanDigits rest
              if ds.1.isEmpty then (([] : List Char), cs3) else (c :: ds.1, ds.2)
          | [] => (([] : List Char), cs3)
        else (([] : List Char), cs3)
      | [] => (([] : List Char), cs3)
    some (sign ++ ip ++ fp ++ expPart.1, expPart.2)

/-- Insert an object member the way the Python dict literal construction does: a
duplicate key keeps its first position but takes the later value. -/
def insertField (k : String) (v : Json) (fs : List (String × Json)) :
    List (String × Json) :=
  match List.lookup k fs with
  | some v2 => (k, v2) :: fs.filter (fun p => !(p.1 == k))
  | none => (k, v) :: fs

mutual

/-- Parse one JSON value (the recursive core of `json.loads`). The fuel argument only
bounds recursion depth; `jsonLoads` passes enough for its input. -/
def parseValue : Nat → List Char → Option (Json × List Char)
  | 0, _ => none
  | Nat.succ fuel, cs0 =>
    let cs := skipWs cs0
    if startsWithChars ("null".data) cs then some (Json.null, cs.drop 4)
    else if startsWithChars ("true".data) cs then some (Json.bool true, cs.drop 4)
    else if startsWithChars ("false".data) cs then some (Json.bool false, cs.drop 5)
    else if startsWithChars ("NaN".data) cs then some (Json.num "nan", cs.drop 3)
    else if startsWithChars ("Infinity".data) cs then some (Json.num "inf", cs.drop 8)
    else if startsWithChars ("-Infinity".data) cs then some (Json.num "-inf", cs.drop 9)
    else
      match cs with
      | [] => none
      | c :: rest =>
        if c = '"' then
          match parseStringChars rest with
          | some (s1, rest2) => some (Json.str (String.mk s1), rest2)
          | none => none
        else if c = '[' then
          match skipWs rest with
          | b :: rest2 =>
            if b = ']' then some (Json.arr [], rest2)
            else
              match parseArrItems fuel (skipWs rest) with
              | some (vs, rest3) => some (Json.arr vs, rest3)
              | none => none
          | [] => none
        else if c = lbrace then
          match skipWs rest with
          | b :: rest2 =>
            if b = rbrace then some (Json.obj [], rest2)
            else
              match parseObjItems fuel (skipWs rest) with
              | some (fs, rest3) => some (Json.obj fs, rest3)
              | none => none
          | [] => none
        else
          match parseNumberTok cs with
          | some (tok, rest2) => some (Json.num (String.mk tok), rest2)
          | none => none

/-- Parse the comma-separated items of a nonempty JSON array, up to and including the
closing bracket. -/
def parseArrItems : Nat → List Char → Option (List Json × List Char)
  | 0, _ => none
  | Nat.succ fuel, cs =>
    match parseValue fuel cs with
    | none => none
    | some (v, rest) =>
      match skipWs rest with
      | c :: rest2 =>
        if c = ',' then
          match parseArrItems fuel rest2 with
          | some (vs, rest3) => some (v :: vs, rest3)
          | none => none
        else if c = ']' then some ([v], rest2)
        else none
      | [] => none

/-- Parse the comma-separated members of a nonempty JSON object, up to and including
the closing brace. -/
def parseObjItems : Nat → List Char → Option (List (String × Json) × List Char)
  | 0, _ => none
  | Nat.succ fuel, cs0 =>
    match skipWs cs0 with
    | c :: rest =>
      if c = '"' then
        match parseStringChars rest with
        | some (key1, rest2) =>
          match skipWs rest2 with
          | d :: rest4 =>
            if d = ':' then
              match parseValue fuel rest4 with
              | some (v, rest5) =>
                match skipWs rest5 with
                | e :: rest7 =>
                  if e = ',' then
                    match parseObjItems fuel rest7 with
                    | some (fs, rest8) => some (insertField (String.mk key1) v fs, rest8)
                    | none => none
                  else if e = rbrace then some ([(String.mk key1, v)], rest7)
                  else none
                | [] => none
              | none => none
            else none
          | [] => none
        | none => none
      else none
    | [] => none

end

/-- Python `json.loads` (weather.py line 71) on the response text: parse one complete JSON
document with surrounding whitespace allowed; `none` models `json.JSONDecodeError`. -/
def jsonLoads (s : String) : Option Json :=
  match parseValue (2 * s.data.length + 8) s.data with
  | some (j, rest) => if (skipWs rest).isEmpty then some j else none
  | none => none

/-- Result of `urllib.request.urlopen`: either an `HTTPError` carrying a status code
(and a response body the handler never touches) or a successful response with a
body. -/
inductive HttpOutcome where
  | httpError (code : Nat) (body : String)
  | success (body : String)

/-- Process-level result of a code path: a normal value, `sys.exit(msg)` (message to
stderr, exit status 1), or an uncaught Python exception (traceback, exit status 1). -/
inductive Res (α : Type) where
  | ok (a : α)
  | exited (msg : String)
  | raised (e : PyError)

/-- The process exit status each outcome produces: `sys.exit` with a string argument
and an uncaught exception both exit with status 1. -/
def Res.exitCode {α : Type} : Res α → Nat
  | .ok _ => 0
  | .exited _ => 1
  | .raised _ => 1

def accessDeniedMsg : String := "Access denied. Please check your API key and try again."

def cityNotFoundMsg : String := "Can" ++ aposS ++ "t find weather data for this city."

def badResponseMsg : String := "Couldn" ++ aposS ++ "t read the server response."

/-- Function `get_weather_data` (weather.py lines 51-73): maps an `HTTPError` status to a fatal
`sys.exit` message without touching the body, and decodes the body of a successful
response, exiting fatally when it is not valid JSON. -/
def get_weather_data (resp : HttpOutcome) : Res Json :=
  match resp with
  | .httpError code _ =>
    if code = 401 then Res.exited accessDeniedMsg
    else if code = 404 then Res.exited cityNotFoundMsg
    else Res.exited ("Something went wrong... (" ++ toString code ++ ")")
  | .success body =>
    match jsonLoads body with
    | some data => Res.ok data
    | none => Res.exited badResponseMsg

/-- Python subscript `x[k]` with a string key: dict lookup, `KeyError` when absent,
`TypeError` on non-dict values. -/
def objGet (j : Json) (k : String) : Except PyError Json :=
  match j with
  | .obj fields =>
    match List.lookup k fields with
    | some v => Except.ok v
    | none => Except.error (PyError.keyError k)
  | _ => Except.error PyError.typeError

/-- Python subscript `x[i]` with an integer index: list indexing (`IndexError` out of
range), string indexing, `TypeError` on non-subscriptable values. -/
def idxGet (j : Json) (i : Nat) : Except PyError Json :=
  match j with
  | .arr xs =>
    match xs[i]? with
    | some v => Except.ok v
    | none => Except.error PyError.indexError
  | .str s =>
    match s.data[i]? with
    | some c => Except.ok (Json.str (String.mk [c]))
    | none => Except.error PyError.indexError
  | _ => Except.error PyError.typeError

/-- Access `weather_data["name"]` (weather.py line 90). -/
def pathName (weather_data : Json) : Except PyError Json := objGet weather_data "name"

/-- Access `weather_data["sys"]["country"]` (weather.py line 91). -/
def pathCountry (weather_data : Json) : Except PyError Json :=
  match objGet weather_data "sys" with
  | Except.error e => Except.error e
  | Except.ok s => objGet s "country"

/-- Access `weather_data["weather"][0]["description"]` (weather.py line 92). -/
def pathDesc (weather_data : Json) : Except PyError Json :=
  match objGet weather_data "weather" with
  | Except.error e => Except.error e
  | Except.ok w =>
    match idxGet w 0 with
    | Except.error e => Except.error e
    | Except.ok w0 => objGet w0 "description"

/-- Access `weather_data["main"]["temp"]` (weather.py line 93). -/
def pathTemp (weather_data : Json) : Except PyError Json :=
  match objGet weather_data "main" with
  | Except.error e => Except.error e
  | Except.ok m => objGet m "temp"

/-- The field extraction block of `print_result` (weather.py lines 90-93), which runs
before anything is printed; the first failing access wins. -/
def extract4 (weather_data : Json) : Except PyError (Json × Json × Json × Json) :=
  match pathName weather_data, pathCountry weather_data,
        pathDesc weather_data, pathTemp weather_data with
  | Except.error e, _, _, _ => Except.error e
  | _, Except.error e, _, _ => Except.error e
  | _, _, Except.error e, _ => Except.error e
  | _, _, _, Except.error e => Except.error e
  | Except.ok a, Except.ok b, Except.ok c, Except.ok d => Except.ok (a, b, c, d)

mutual

/-- Python `repr` of a decoded JSON value (used when a container is interpolated). -/
def pyRepr : Json → String
  | .null => "None"
  | .bool true => "True"
  | .bool false => "False"
  | .num lit => lit
  | .str s => aposS ++ s ++ aposS
  | .arr xs => "[" ++ String.intercalate ", " (pyReprList xs) ++ "]"
  | .obj fs => String.mk [lbrace] ++ String.intercalate ", " (pyReprFields fs)
      ++ String.mk [rbrace]

def pyReprList : List Json → List String
  | [] => []
  | x :: xs => pyRepr x :: pyReprList xs

def pyReprFields : List (String × Json) → List String
  | [] => []
  | (k, v) :: fs => (aposS ++ k ++ aposS ++ ": " ++ pyRepr v) :: pyReprFields fs

end

/-- Python `str()` of a decoded JSON value, as an f-string interpolation with an empty
format spec produces. -/
def pyStr : Json → String
  | .null => "None"
  | .bool true => "True"
  | .bool false => "False"
  | .num lit => lit
  | .str s => s
  | .arr xs => pyRepr (Json.arr xs)
  | .obj fs => pyRepr (Json.obj fs)

/-- Python centering format `f"{s:^w}"` for a string of length `n`: pads with spaces,
with the extra space on the right. -/
def centerStr (s : String) (w : Nat) : String :=
  let n := s.data.length
  if w ≤ n then s
  else
    let left := (w - n) / 2
    String.mk (List.replicate left ' ' ++ s.data ++ List.replicate (w - n - left) ' ')

/-- Python `format(value, spec)` for the centering spec `^PADDING`: strings and number
literals center their text, `True`/`False` format through `int.__format__` as `1`/`0`,
and `None`, lists and dicts raise `TypeError` (a nonempty format spec reaches
`object.__format__`). -/
def formatCenter (j : Json) (w : Nat) : Except PyError String :=
  match j with
  | .str s => Except.ok (centerStr s w)
  | .num lit => Except.ok (centerStr lit w)
  | .bool true => Except.ok (centerStr "1" w)
  | .bool false => Except.ok (centerStr "0" w)
  | _ => Except.error PyError.typeError

/-- Python `str.capitalize` (on the ASCII range): first character uppercased, the rest
lowercased; attribute access on a non-string raises `AttributeError`. -/
def capitalizeAttr (j : Json) : Except PyError String :=
  match j with
  | .str s =>
    match s.data with
    | [] => Except.ok ""
    | c :: cs => Except.ok (String.mk (c.toUpper :: cs.map Char.toLower))
  | _ => Except.error PyError.attrError

/-- The printing half of `print_result` (weather.py lines 94-104), applied to the four
extracted payload values: returns the text written to standard output, paired with the
exception that aborted the printing, if any. The `Â°` before the unit symbol
reproduces the two characters that literally appear in the source at line 104. -/
def renderStyled (city_name city_country weather_description temperature : Json)
    (imperial : Bool) : String × Option PyError :=
  match formatCenter city_name PADDING with
  | Except.error e => (change_color REVERSE ++ change_color RED, some e)
  | Except.ok cityF =>
    match capitalizeAttr weather_description with
    | Except.error e =>
      (change_color REVERSE ++ change_color RED ++ cityF ++ ", " ++ pyStr city_country
        ++ change_color RESET ++ change_color RED, some e)
    | Except.ok descC =>
      (change_color REVERSE ++ change_color RED ++ cityF ++ ", " ++ pyStr city_country
        ++ change_color RESET ++ change_color RED ++ "\t" ++ centerStr descC PADDING
        ++ " " ++ change_color RESET ++ "(" ++ pyStr temperature ++ "Â°"
        ++ (if imperial then "F" else "C") ++ ")" ++ "\n", none)

/-- Function `print_result` (weather.py lines 89-104): extracts the four payload fields, then
writes the styled line; returns the text written to standard output and the uncaught
exception, if one occurred. -/
def print_result (weather_data : Json) (imperial : Bool) : String × Option PyError :=
  match extract4 weather_data with
  | Except.error e => ("", some e)
  | Except.ok (city_name, city_country, weather_description, temperature) =>
    renderStyled city_name city_country weather_description temperature imperial

/-- The `__main__` block (weather.py lines 106-110), with the HTTP transport passed in
as a function from the request URL to its outcome: returns the text written to
standard output and the process-level result. -/
def runMain (config : Config) (city : List String) (imperial : Bool)
    (http : String → HttpOutcome) : String × Res Unit :=
  match build_weather_query city imperial config with
  | Except.error e => ("", Res.raised e)
  | Except.ok query_url =>
    match get_weather_data (http query_url) with
    | Res.exited m => ("", Res.exited m)
    | Res.raised e => ("", Res.raised e)
    | Res.ok weather_data =>
      match print_result weather_data imperial with
      | (out, none) => (out, Res.ok ())
      | (out, some e) => (out, Res.raised e)

/-- Does `pat` occur as a contiguous substring of the character list? -/
def occursIn (pat : List Char) : List Char → Bool
  | [] => pat.isEmpty
  | c :: cs => startsWithChars pat (c :: cs) || occursIn pat cs

/-- Substring test on strings. -/
def strContains (s pat : String) : Bool := occursIn pat.data s.data

/-- Suffix test on strings. -/
def endsWithStr (s tail1 : String) : Bool :=
  startsWithChars tail1.data.reverse s.data.reverse

/-- Everything after the first `?`, i.e. the query string of a URL. -/
def afterQmark : List Char → List Char
  | [] => []
  | c :: cs => if c = '?' then cs else afterQmark cs

/-- Split a character list on `&`. -/
def splitOnAmp : List Char → List (List Char)
  | [] => [[]]
  | c :: cs =>
    if c = '&' then [] :: splitOnAmp cs
    else
      match splitOnAmp cs with
      | [] => [[c]]
      | p :: ps => (c :: p) :: ps

/-- Split a character list at its first `=`. -/
def splitEqFirst : List Char → List Char × List Char
  | [] => ([], [])
  | c :: cs =>
    if c = '=' then ([], cs)
    else
      let p := splitEqFirst cs
      (c :: p.1, p.2)

/-- The key=value query parameters of a URL: everything after the first `?`, split on
`&`, each part split at its first `=`. -/
def urlParams (url : String) : List (String × String) :=
  (splitOnAmp (afterQmark url.data)).map
    (fun part => (String.mk (splitEqFirst part).1, String.mk (splitEqFirst part).2))

/-- The decoded Paris payload of the specification example (§8). -/
def parisPayload : Json :=
  Json.obj [("name", Json.str "Paris"),
            ("sys", Json.obj [("country", Json.str "FR")]),
            ("weather", Json.arr [Json.obj [("description", Json.str "clear sky")]]),
            ("main", Json.obj [("temp", Json.num "18.5")])]

/-! Basic facts about the string and list helpers. -/

theorem strDataAppend (s t : String) : (s ++ t).data = s.data ++ t.data := by
  cases s; cases t; rfl

theorem strMkData (s : String) : String.mk s.data = s := by
  cases s; rfl

theorem strDataInj {s t : String} (h : s.data = t.data) : s = t := by
  cases s; cases t; exact congrArg String.mk h

theorem startsWith_self_append (p r : List Char) : startsWithChars p (p ++ r) = true := by
  induction p with
  | nil => rfl
  | cons c cs ih => simp [startsWithChars, ih]

theorem startsWith_unique : ∀ (l p q : List Char), startsWithChars p l = true →
    startsWithChars q l = true → p.length = q.length → p = q := by
  intro l
  induction l with
  | nil =>
    intro p q hp hq _
    cases p with
    | nil =>
      cases q with
      | nil => rfl
      | cons d ds => exact absurd hq (by simp [startsWithChars])
    | cons a as => exact absurd hp (by simp [startsWithChars])
  | cons c cs ih =>
    intro p q hp hq hlen
    cases p with
    | nil =>
      cases q with
      | nil => rfl
      | cons d ds => simp at hlen
    | cons a as =>
      cases q with
      | nil => simp at hlen
      | cons d ds =>
        simp only [startsWithChars, Bool.and_eq_true, beq_iff_eq] at hp hq
        obtain ⟨ha, hp2⟩ := hp
        obtain ⟨hd, hq2⟩ := hq
        subst ha; subst hd
        have hr := ih as ds hp2 hq2 (by simpa using hlen)
        rw [hr]

theorem endsWith_of_append {s t : String} (a : List Char) (h : s.data = a ++ t.data) :
    endsWithStr s t = true := by
  unfold endsWithStr
  rw [h, List.reverse_append]
  exact startsWith_self_append _ _

theorem endsWith_unique {s t1 t2 : String} (h1 : endsWithStr s t1 = true)
    (h2 : endsWithStr s t2 = true) (hlen : t1.data.length = t2.data.length) : t1 = t2 := by
  unfold endsWithStr at h1 h2
  have h := startsWith_unique _ _ _ h1 h2 (by simp [hlen])
  apply strDataInj
  have h' := congrArg List.reverse h
  simpa using h'

theorem afterQmark_append : ∀ (a b : List Char), '?' ∉ a →
    afterQmark (a ++ '?' :: b) = b := by
  intro a
  induction a with
  | nil => intro b _; simp [afterQmark]
  | cons c cs ih =>
    intro b h
    have h1 : ¬ c = '?' := fun hEq => h (by rw [hEq]; exact List.mem_cons_self _ _)
    have h2 : '?' ∉ cs := fun hm => h (List.mem_cons_of_mem _ hm)
    simp [afterQmark, h1, ih b h2]

theorem splitOnAmp_no_amp : ∀ (l : List Char), '&' ∉ l → splitOnAmp l = [l] := by
  intro l
  induction l with
  | nil => intro _; rfl
  | cons c cs ih =>
    intro h
    have h1 : ¬ c = '&' := fun hEq => h (by rw [hEq]; exact List.mem_cons_self _ _)
    have h2 : '&' ∉ cs := fun hm => h (List.mem_cons_of_mem _ hm)
    simp [splitOnAmp, h1, ih h2]

theorem splitOnAmp_append : ∀ (a b : List Char), '&' ∉ a →
    splitOnAmp (a ++ '&' :: b) = a :: splitOnAmp b := by
  intro a
  induction a with
  | nil => intro b _; simp [splitOnAmp]
  | cons c cs ih =>
    intro b h
    have h1 : ¬ c = '&' := fun hEq => h (by rw [hEq]; exact List.mem_cons_self _ _)
    have h2 : '&' ∉ cs := fun hm => h (List.mem_cons_of_mem _ hm)
    simp [splitOnAmp, h1, ih b h2]

theorem splitEqFirst_append : ∀ (k v : List Char), '=' ∉ k →
    splitEqFirst (k ++ '=' :: v) = (k, v) := by
  intro k
  induction k with
  | nil => intro v _; simp [splitEqFirst]
  | cons c cs ih =>
    intro v h
    have h1 : ¬ c = '=' := fun hEq => h (by rw [hEq]; exact List.mem_cons_self _ _)
    have h2 : '=' ∉ cs := fun hm => h (List.mem_cons_of_mem _ hm)
    simp [splitEqFirst, h1, ih v h2]

theorem not_mem_cons_of {c a : Char} {l : List Char} (h1 : c ≠ a) (h2 : c ∉ l) :
    c ∉ a :: l := by
  intro h
  rcases List.mem_cons.mp h with h | h
  · exact h1 h
  · exact h2 h

/-! Facts about the percent-encoder. -/

theorem hexDigit_mem (n : Nat) : hexDigit n ∈ "0123456789ABCDEF".data := by
  unfold hexDigit
  rcases Nat.lt_or_ge n ("0123456789ABCDEF".data.length) with h | h
  · rw [List.getD_eq_getElem _ _ h]
    exact List.getElem_mem h
  · rw [List.getD_eq_default _ _ h]
    decide

theorem quoteChar_good (c : Char) :
    ∀ x ∈ quoteChar c, x ≠ '&' ∧ x ≠ '=' ∧ x ≠ ' ' := by
  intro x hx
  unfold quoteChar at hx
  by_cases hsafe : isSafeChar c = true
  · rw [if_pos hsafe] at hx
    simp at hx
    subst hx
    unfold isSafeChar at hsafe
    simp only [Bool.or_eq_true, decide_eq_true_eq] at hsafe
    refine ⟨?_, ?_, ?_⟩ <;> rintro rfl <;>
      rcases hsafe with h | h | h | h | h <;> exact absurd h (by decide)
  · rw [if_neg hsafe] at hx
    by_cases hsp : c = ' '
    · rw [if_pos hsp] at hx
      simp at hx
      subst hx
      exact ⟨by decide, by decide, by decide⟩
    · rw [if_neg hsp] at hx
      simp only [List.mem_flatten, List.mem_map] at hx
      obtain ⟨l, ⟨b, hb, rfl⟩, hxl⟩ := hx
      simp only [List.mem_cons, List.not_mem_nil, or_false] at hxl
      rcases hxl with rfl | rfl | rfl
      · exact ⟨by decide, by decide, by decide⟩
      · have hm := hexDigit_mem (b / 16)
        refine ⟨?_, ?_, ?_⟩ <;> intro hEq <;> rw [hEq] at hm <;>
          exact absurd hm (by decide)
      · have hm := hexDigit_mem (b % 16)
        refine ⟨?_, ?_, ?_⟩ <;> intro hEq <;> rw [hEq] at hm <;>
          exact absurd hm (by decide)

theorem quote_plus_good (s : String) :
    ∀ x ∈ (quote_plus s).data, x ≠ '&' ∧ x ≠ '=' ∧ x ≠ ' ' := by
  intro x hx
  have hd : (quote_plus s).data = (s.data.map quoteChar).flatten := rfl
  rw [hd, List.mem_flatten] at hx
  obtain ⟨l, hl, hxl⟩ := hx
  rw [List.mem_map] at hl
  obtain ⟨c, _, rfl⟩ := hl
  exact quoteChar_good c x hxl

theorem quote_plus_no_amp (s : String) : '&' ∉ (quote_plus s).data :=
  fun h => (quote_plus_good s _ h).1 rfl

theorem quote_plus_no_eq (s : String) : '=' ∉ (quote_plus s).data :=
  fun h => (quote_plus_good s _ h).2.1 rfl

theorem base_no_qmark : '?' ∉ BASE_WEATHER_API_URL.data := by decide

/-! Decomposition of the request URL into its query parameters. -/

theorem build_url_data (city : List String) (imp : Bool) (key : String) :
    (build_weather_query_url city imp key).data =
      BASE_WEATHER_API_URL.data ++ '?' :: 'q' :: '=' ::
        ((quote_plus (String.intercalate " " city)).data
          ++ '&' :: 'u' :: 'n' :: 'i' :: 't' :: 's' :: '=' ::
            (((if imp then "imperial" else "metric") : String).data
              ++ '&' :: 'a' :: 'p' :: 'p' :: 'i' :: 'd' :: '=' :: key.data)) := by
  have h1 : ("?q=" : String).data = ['?', 'q', '='] := rfl
  have h2 : ("&units=" : String).data = ['&', 'u', 'n', 'i', 't', 's', '='] := rfl
  have h3 : ("&appid=" : String).data = ['&', 'a', 'p', 'p', 'i', 'd', '='] := rfl
  simp [build_weather_query_url, strDataAppend, h1, h2, h3, List.append_assoc]

theorem urlParams_build (city : List String) (imp : Bool) (key : String)
    (hkey : '&' ∉ key.data) :
    urlParams (build_weather_query_url city imp key) =
      [("q", quote_plus (String.intercalate " " city)),
       ("units", if imp then "imperial" else "metric"),
       ("appid", key)] := by
  have hE := quote_plus_no_amp (String.intercalate " " city)
  have hEq := quote_plus_no_eq (String.intercalate " " city)
  unfold urlParams
  rw [build_url_data, afterQmark_append _ _ base_no_qmark]
  have hU : '&' ∉ (((if imp then "imperial" else "metric") : String).data) := by
    cases imp <;> decide
  have s1 : splitOnAmp ('q' :: '=' ::
      ((quote_plus (String.intercalate " " city)).data
        ++ '&' :: 'u' :: 'n' :: 'i' :: 't' :: 's' :: '=' ::
          (((if imp then "imperial" else "metric") : String).data
            ++ '&' :: 'a' :: 'p' :: 'p' :: 'i' :: 'd' :: '=' :: key.data))) =
      ('q' :: '=' :: (quote_plus (String.intercalate " " city)).data) ::
        splitOnAmp ('u' :: 'n' :: 'i' :: 't' :: 's' :: '=' ::
          (((if imp then "imperial" else "metric") : String).data
            ++ '&' :: 'a' :: 'p' :: 'p' :: 'i' :: 'd' :: '=' :: key.data)) := by
    have := splitOnAmp_append
      ('q' :: '=' :: (quote_plus (String.intercalate " " city)).data)
      ('u' :: 'n' :: 'i' :: 't' :: 's' :: '=' ::
        (((if imp then "imperial" else "metric") : String).data
          ++ '&' :: 'a' :: 'p' :: 'p' :: 'i' :: 'd' :: '=' :: key.data))
      (not_mem_cons_of (by decide) (not_mem_cons_of (by decide) hE))
    simpa using this
  have s2 : splitOnAmp ('u' :: 'n' :: 'i' :: 't' :: 's' :: '=' ::
      (((if imp then "imperial" else "metric") : String).data
        ++ '&' :: 'a' :: 'p' :: 'p' :: 'i' :: 'd' :: '=' :: key.data)) =
      ('u' :: 'n' :: 'i' :: 't' :: 's' :: '=' ::
        ((if imp then "imperial" else "metric") : String).data) ::
        splitOnAmp ('a' :: 'p' :: 'p' :: 'i' :: 'd' :: '=' :: key.data) := by
    have := splitOnAmp_append
      ('u' :: 'n' :: 'i' :: 't' :: 's' :: '=' ::
        ((if imp then "imperial" else "metric") : String).data)
      ('a' :: 'p' :: 'p' :: 'i' :: 'd' :: '=' :: key.data)
      (not_mem_cons_of (by decide) (not_mem_cons_of (by decide)
        (not_mem_cons_of (by decide) (not_mem_cons_of (by decide)
          (not_mem_cons_of (by decide) (not_mem_cons_of (by decide) hU))))))
    simpa using this
  have s3 : splitOnAmp ('a' :: 'p' :: 'p' :: 'i' :: 'd' :: '=' :: key.data) =
      [('a' :: 'p' :: 'p' :: 'i' :: 'd' :: '=' :: key.data)] :=
    splitOnAmp_no_amp _
      (not_mem_cons_of (by decide) (not_mem_cons_of (by decide)
        (not_mem_cons_of (by decide) (not_mem_cons_of (by decide)
          (not_mem_cons_of (by decide) (not_mem_cons_of (by decide) hkey))))))
  rw [s1, s2, s3]
  have e1 : splitEqFirst ('q' :: '=' :: (quote_plus (String.intercalate " " city)).data) =
      (['q'], (quote_plus (String.intercalate " " city)).data) := by
    have := splitEqFirst_append ['q'] (quote_plus (String.intercalate " " city)).data
      (by decide)
    simpa using this
  have e2 : splitEqFirst ('u' :: 'n' :: 'i' :: 't' :: 's' :: '=' ::
      ((if imp then "imperial" else "metric") : String).data) =
      (['u', 'n', 'i', 't', 's'], ((if imp then "imperial" else "metric") : String).data) := by
    have := splitEqFirst_append ['u', 'n', 'i', 't', 's']
      ((if imp then "imperial" else "metric") : String).data (by decide)
    simpa using this
  have e3 : splitEqFirst ('a' :: 'p' :: 'p' :: 'i' :: 'd' :: '=' :: key.data) =
      (['a', 'p', 'p', 'i', 'd'], key.data) := by
    have := splitEqFirst_append ['a', 'p', 'p', 'i', 'd'] key.data (by decide)
    simpa using this
  simp only [List.map_cons, List.map_nil, e1, e2, e3]

/-! Shape of the presenter output on success. -/

theorem print_success_tail {wd : Json} {imp : Bool} {out : String}
    (h : print_result wd imp = (out, none)) :
    ∃ a : List Char,
      out.data = a ++ ("Â°" ++ (if imp then "F" else "C") ++ ")" ++ "\n").data := by
  unfold print_result at h
  cases hE : extract4 wd with
  | error e => rw [hE] at h; simp at h
  | ok quad =>
    obtain ⟨cn, cc, wdesc, tmp⟩ := quad
    rw [hE] at h
    dsimp only at h
    unfold renderStyled at h
    cases hF : formatCenter cn PADDING with
    | error e => rw [hF] at h; simp at h
    | ok cityF =>
      rw [hF] at h
      dsimp only at h
      cases hC : capitalizeAttr wdesc with
      | error e => rw [hC] at h; simp at h
      | ok descC =>
        rw [hC] at h
        dsimp only at h
        simp only [Prod.mk.injEq] at h
        obtain ⟨h1, -⟩ := h
        refine ⟨(change_color REVERSE ++ change_color RED ++ cityF ++ ", " ++ pyStr cc
          ++ change_color RESET ++ change_color RED ++ "\t" ++ centerStr descC PADDING
          ++ " " ++ change_color RESET ++ "(" ++ pyStr tmp).data, ?_⟩
        rw [← h1]
        simp [strDataAppend, List.append_assoc]

/-- C3: for every non-empty list of city tokens and every value of the imperial flag
(and any API key without a literal ampersand), the URL built by `build_weather_query`
has query parameters consisting of exactly the percent-encoded space-joined city text
(with no space left in it), exactly one `units` parameter, and the key: `units` is
`imperial` if and only if the flag is true and `metric` if and only if it is false —
never both, never neither. -/
theorem build_weather_query_units_and_encoding (city : List String) (imp : Bool)
    (key : String) (hcity : city ≠ []) (hkey : '&' ∉ key.data) :
    urlParams (build_weather_query_url city imp key) =
      [("q", quote_plus (String.intercalate " " city)),
       ("units", if imp then "imperial" else "metric"),
       ("appid", key)] ∧
    (∀ ch ∈ (quote_plus (String.intercalate " " city)).data, ch ≠ ' ') ∧
    (((urlParams (build_weather_query_url city imp key)).filter
        (fun p => p.1 == "units")) = [("units", "imperial")] ↔ imp = true) ∧
    (((urlParams (build_weather_query_url city imp key)).filter
        (fun p => p.1 == "units")) = [("units", "metric")] ↔ imp = false) := by
  have hp := urlParams_build city imp key hkey
  have b1 : (("q" : String) == "units") = false := by decide
  have b2 : (("units" : String) == "units") = true := by decide
  have b3 : (("appid" : String) == "units") = false := by decide
  refine ⟨hp, fun ch hch => (quote_plus_good _ ch hch).2.2, ?_, ?_⟩ <;>
    rw [hp] <;> cases imp <;>
    simp [List.filter_cons, b1, b2, b3]

/-- C3 witness: the theorem applied to the concrete city tokens `["New", "York"]`,
the metric flag, and the key `"k3y"`. -/
theorem build_weather_query_units_and_encoding_witness :
    (["New", "York"] ≠ ([] : List String)) ∧
    ('&' ∉ ("k3y" : String).data) ∧
    (urlParams (build_weather_query_url ["New", "York"] false "k3y") =
      [("q", quote_plus (String.intercalate " " ["New", "York"])),
       ("units", if false then "imperial" else "metric"),
       ("appid", "k3y")] ∧
    (∀ ch ∈ (quote_plus (String.intercalate " " ["New", "York"])).data, ch ≠ ' ') ∧
    (((urlParams (build_weather_query_url ["New", "York"] false "k3y")).filter
        (fun p => p.1 == "units")) = [("units", "imperial")] ↔ false = true) ∧
    (((urlParams (build_weather_query_url ["New", "York"] false "k3y")).filter
        (fun p => p.1 == "units")) = [("units", "metric")] ↔ false = false)) :=
  ⟨by decide, by decide,
    build_weather_query_units_and_encoding ["New", "York"] false "k3y"
      (by decide) (by decide)⟩

/-- C7: the unit system encoded in the request URL and the unit symbol printed with
the temperature follow the same flag and never drift: for any city tokens, any
ampersand-free API key, and any payload that `print_result` renders successfully, the
URL query holds the single parameter `units=imperial` exactly when the flag is true —
the same condition under which the printed line ends with the symbol `F` — and
`units=metric` exactly when the flag is false, the condition under which it ends with
`C`. -/
theorem units_request_display_pairing (city : List String) (key : String) (imp : Bool)
    (wd : Json) (out : String) (hkey : '&' ∉ key.data)
    (hprint : print_result wd imp = (out, none)) :
    (((urlParams (build_weather_query_url city imp key)).filter
        (fun p => p.1 == "units")) = [("units", "imperial")] ↔ imp = true) ∧
    (((urlParams (build_weather_query_url city imp key)).filter
        (fun p => p.1 == "units")) = [("units", "metric")] ↔ imp = false) ∧
    (endsWithStr out "Â°F)\n" = true ↔ imp = true) ∧
    (endsWithStr out "Â°C)\n" = true ↔ imp = false) := by
  have hp := urlParams_build city imp key hkey
  obtain ⟨a, ha⟩ := print_success_tail hprint
  have b1 : (("q" : String) == "units") = false := by decide
  have b2 : (("units" : String) == "units") = true := by decide
  have b3 : (("appid" : String) == "units") = false := by decide
  cases imp
  case false =>
    have hC : endsWithStr out "Â°C)\n" = true := endsWith_of_append a (by rw [ha]; rfl)
    have hnotF : ¬ endsWithStr out "Â°F)\n" = true := by
      intro hF
      have heq := endsWith_unique hF hC (by decide)
      exact absurd heq (by decide)
    have hf : ((urlParams (build_weather_query_url city false key)).filter
        (fun p => p.1 == "units")) = [("units", "metric")] := by
      rw [hp]
      simp [List.filter_cons, b1, b2, b3]
    refine ⟨?_, ?_, ?_, ?_⟩
    · rw [hf]
      constructor
      · intro hx; exact absurd hx (by decide)
      · intro hx; exact absurd hx (by decide)
    · simp [hf]
    · constructor
      · intro hx; exact absurd hx hnotF
      · intro hx; exact absurd hx (by decide)
    · simp [hC]
  case true =>
    have hF : endsWithStr out "Â°F)\n" = true := endsWith_of_append a (by rw [ha]; rfl)
    have hnotC : ¬ endsWithStr out "Â°C)\n" = true := by
      intro hC
      have heq := endsWith_unique hF hC (by decide)
      exact absurd heq (by decide)
    have hf : ((urlParams (build_weather_query_url city true key)).filter
        (fun p => p.1 == "units")) = [("units", "imperial")] := by
      rw [hp]
      simp [List.filter_cons, b1, b2, b3]
    refine ⟨?_, ?_, ?_, ?_⟩
    · simp [hf]
    · rw [hf]
      constructor
      · intro hx; exact absurd hx (by decide)
      · intro hx; exact absurd hx (by decide)
    · simp [hF]
    · constructor
      · intro hx; exact absurd hx hnotC
      · intro hx; exact absurd hx (by decide)

/-- C7 witness: the theorem applied to the city `["Paris"]`, the key `"k"`, the
metric flag, and the Paris payload, whose rendering succeeds. -/
theorem units_request_display_pairing_witness :
    ('&' ∉ ("k" : String).data) ∧
    (print_result parisPayload false = ((print_result parisPayload false).1, none)) ∧
    ((((urlParams (build_weather_query_url ["Paris"] false "k")).filter
        (fun p => p.1 == "units")) = [("units", "imperial")] ↔ false = true) ∧
    (((urlParams (build_weather_query_url ["Paris"] false "k")).filter
        (fun p => p.1 == "units")) = [("units", "metric")] ↔ false = false) ∧
    (endsWithStr (print_result parisPayload false).1 "Â°F)\n" = true ↔ false = true) ∧
    (endsWithStr (print_result parisPayload false).1 "Â°C)\n" = true ↔ false = false)) :=
  ⟨by decide, by rfl,
    units_request_display_pairing ["Paris"] "k" false parisPayload
      (print_result parisPayload false).1 (by decide) (by rfl)⟩

/-- C1: evaluating `print_result` on the decoded Paris payload of the spec example
with imperial=false shows the claim failing on the code: the printed text does
contain "Paris, FR" and "Clear sky", but the temperature renders as "(18.5Â°C)" —
weather.py line 104 literally contains the two characters `Â°` (a double-encoded
degree sign) — so the claimed substring "(18.5°C)" does not occur. -/
theorem print_result_paris_eval :
    (print_result parisPayload false).2 = none ∧
    strContains (print_result parisPayload false).1 "Paris, FR" = true ∧
    strContains (print_result parisPayload false).1 "Clear sky" = true ∧
    strContains (print_result parisPayload false).1 "(18.5°C)" = false ∧
    strContains (print_result parisPayload false).1 "(18.5Â°C)" = true := by
  refine ⟨rfl, ?_, ?_, ?_, ?_⟩ <;> decide

/-- Configuration state holding the API key "firstKey". -/
def cfgA : Config := [("openweather", [("api_key", "firstKey")])]

/-- Configuration state holding the API key "secondKey". -/
def cfgB : Config := [("openweather", [("api_key", "secondKey")])]

/-- Configuration state holding the API key "firstKey" next to an unrelated entry. -/
def cfgC : Config := [("openweather", [("api_key", "firstKey"), ("other", "x")])]

/-- C2 counterexample: two calls of `build_weather_query` with the identical city
token list and imperial flag return different URL strings when the configuration
state read by `_get_api_key` differs, so the result does not depend only on the two
arguments. -/
theorem build_weather_query_depends_on_config :
    build_weather_query ["Paris"] false cfgA =
      Except.ok
        "http://api.openweathermap.org/data/2.5/weather?q=Paris&units=metric&appid=firstKey" ∧
    build_weather_query ["Paris"] false cfgB =
      Except.ok
        "http://api.openweathermap.org/data/2.5/weather?q=Paris&units=metric&appid=secondKey" ∧
    ("http://api.openweathermap.org/data/2.5/weather?q=Paris&units=metric&appid=firstKey"
      : String) ≠
      "http://api.openweathermap.org/data/2.5/weather?q=Paris&units=metric&appid=secondKey" :=
  ⟨rfl, rfl, by decide⟩

/-- C2 (amended): `build_weather_query` is deterministic in its two arguments
together with the credential read from the configuration state: two calls with the
same city tokens, the same imperial flag, and configuration states from which
`_get_api_key` reads the same result return the same URL. -/
theorem build_weather_query_deterministic_in_config (city : List String) (imp : Bool)
    (cfg1 cfg2 : Config) (h : _get_api_key cfg1 = _get_api_key cfg2) :
    build_weather_query city imp cfg1 = build_weather_query city imp cfg2 := by
  unfold build_weather_query
  rw [h]

/-- C2 witness: the amended theorem applied to two distinct configuration states
storing the same credential. -/
theorem build_weather_query_deterministic_in_config_witness :
    _get_api_key cfgA = _get_api_key cfgC ∧
    build_weather_query ["Paris"] false cfgA = build_weather_query ["Paris"] false cfgC :=
  ⟨rfl, build_weather_query_deterministic_in_config ["Paris"] false cfgA cfgC rfl⟩

/-- C4: when the HTTP GET raises an `HTTPError` with status 401, `get_weather_data`
terminates the process (exit status 1) with exactly the access-denied message, and
the result is the same for every response body — the body is never read or parsed on
that path. -/
theorem get_weather_data_401_access_denied (body body2 : String) :
    get_weather_data (HttpOutcome.httpError 401 body) = Res.exited accessDeniedMsg ∧
    (get_weather_data (HttpOutcome.httpError 401 body)).exitCode = 1 ∧
    get_weather_data (HttpOutcome.httpError 401 body) =
      get_weather_data (HttpOutcome.httpError 401 body2) :=
  ⟨rfl, rfl, rfl⟩

/-- C5: on an `HTTPError` the result of `get_weather_data` is determined solely by
the status code (never by the body): status 404 exits with the city-not-found
message, and every other status distinct from 401 and 404 exits with the generic
message that embeds the numeric status code; both paths exit with status 1. -/
theorem get_weather_data_http_error_messages (code : Nat) (body body2 : String) :
    (get_weather_data (HttpOutcome.httpError 404 body) = Res.exited cityNotFoundMsg ∧
      (get_weather_data (HttpOutcome.httpError 404 body)).exitCode = 1) ∧
    (get_weather_data (HttpOutcome.httpError code body) =
      get_weather_data (HttpOutcome.httpError code body2)) ∧
    (code ≠ 401 → code ≠ 404 →
      get_weather_data (HttpOutcome.httpError code body) =
        Res.exited ("Something went wrong... (" ++ toString code ++ ")") ∧
      (get_weather_data (HttpOutcome.httpError code body)).exitCode = 1) := by
  refine ⟨⟨rfl, rfl⟩, rfl, ?_⟩
  intro h1 h2
  unfold get_weather_data
  dsimp only
  rw [if_neg h1, if_neg h2]
  exact ⟨rfl, rfl⟩

/-- C5 witness: the theorem applied at the concrete status 500, discharging both
side conditions. -/
theorem get_weather_data_http_error_messages_witness :
    (500 : Nat) ≠ 401 ∧ (500 : Nat) ≠ 404 ∧
    (get_weather_data (HttpOutcome.httpError 500 "irrelevant") =
        Res.exited ("Something went wrong... (" ++ toString (500 : Nat) ++ ")") ∧
      (get_weather_data (HttpOutcome.httpError 500 "irrelevant")).exitCode = 1) :=
  ⟨by decide, by decide,
    (get_weather_data_http_error_messages 500 "irrelevant" "irrelevant").2.2
      (by decide) (by decide)⟩

/-- C6: whenever the configuration yields an API key and the HTTP GET succeeds with a
body that is not valid JSON, the whole run terminates via `sys.exit` (exit status 1)
with the could-not-read-response message and writes nothing to standard
output — `print_result` is never reached. -/
theorem invalid_json_fatal_no_output (config : Config) (city : List String)
    (imp : Bool) (body k : String) (hkey : _get_api_key config = Except.ok k)
    (hbad : jsonLoads body = none) :
    runMain config city imp (fun _ => HttpOutcome.success body) =
      ("", Res.exited badResponseMsg) ∧
    (runMain config city imp (fun _ => HttpOutcome.success body)).2.exitCode = 1 := by
  unfold runMain build_weather_query
  rw [hkey]
  dsimp only
  unfold get_weather_data
  dsimp only
  rw [hbad]
  exact ⟨rfl, rfl⟩

/-- C6 witness: the theorem applied to a one-key configuration and the body
"notjson", which is not valid JSON. -/
theorem invalid_json_fatal_no_output_witness :
    _get_api_key [("openweather", [("api_key", "k")])] = Except.ok "k" ∧
    jsonLoads "notjson" = none ∧
    (runMain [("openweather", [("api_key", "k")])] ["Paris"] false
        (fun _ => HttpOutcome.success "notjson") =
      ("", Res.exited badResponseMsg) ∧
    (runMain [("openweather", [("api_key", "k")])] ["Paris"] false
        (fun _ => HttpOutcome.success "notjson")).2.exitCode = 1) :=
  ⟨rfl, rfl,
    invalid_json_fatal_no_output [("openweather", [("api_key", "k")])] ["Paris"]
      false "notjson" "k" rfl rfl⟩

/-- C8: `_get_api_key` returns no fallback: with the configuration file absent (the
parse of a missing file is the empty configuration), the `[openweather]` section
absent, or the `api_key` key absent, it raises a `KeyError`, which aborts the whole
run with exit status 1 and no output; when all are present it returns exactly the
stored credential string. -/
theorem get_api_key_fatal_or_value (config : Config) (city : List String)
    (imp : Bool) (http : String → HttpOutcome) :
    (_get_api_key [] = Except.error (PyError.keyError "openweather")) ∧
    (List.lookup "openweather" config = none →
      _get_api_key config = Except.error (PyError.keyError "openweather")) ∧
    (∀ sect, List.lookup "openweather" config = some sect →
      List.lookup "api_key" sect = none →
      _get_api_key config = Except.error (PyError.keyError "api_key")) ∧
    (∀ sect v, List.lookup "openweather" config = some sect →
      List.lookup "api_key" sect = some v → _get_api_key config = Except.ok v) ∧
    (∀ e, _get_api_key config = Except.error e →
      runMain config city imp http = ("", Res.raised e) ∧
      (runMain config city imp http).2.exitCode = 1) := by
  refine ⟨rfl, ?_, ?_, ?_, ?_⟩
  · intro h
    unfold _get_api_key
    rw [h]
  · intro sect h1 h2
    unfold _get_api_key
    rw [h1]
    dsimp only
    rw [h2]
  · intro sect v h1 h2
    unfold _get_api_key
    rw [h1]
    dsimp only
    rw [h2]
  · intro e he
    unfold runMain build_weather_query
    rw [he]
    exact ⟨rfl, rfl⟩

/-- C8 witness: the theorem applied to the empty configuration (the parse of a
missing `secrets.ini`), with the run aborting on the `KeyError`. -/
theorem get_api_key_fatal_or_value_witness :
    (_get_api_key [] = Except.error (PyError.keyError "openweather")) ∧
    (runMain [] ["Paris"] false (fun _ => HttpOutcome.success "x") =
      ("", Res.raised (PyError.keyError "openweather")) ∧
    (runMain [] ["Paris"] false (fun _ => HttpOutcome.success "x")).2.exitCode = 1) :=
  ⟨rfl,
    (get_api_key_fatal_or_value [] ["Paris"] false
        (fun _ => HttpOutcome.success "x")).2.2.2.2
      (PyError.keyError "openweather") rfl⟩

/-- C9: the syntactically valid JSON payload given by the empty object (parsed by
`jsonLoads` from the two-character document consisting of braces) makes
`print_result` raise an uncaught `KeyError` — not any of the designed `sys.exit`
messages — and the whole run aborts with that exception before writing anything:
payload field access is trusted, not validated. -/
theorem print_result_unvalidated_payload_raises :
    jsonLoads (String.mk [lbrace, rbrace]) = some (Json.obj []) ∧
    print_result (Json.obj []) false = ("", some (PyError.keyError "name")) ∧
    runMain [("openweather", [("api_key", "k")])] ["Paris"] false
        (fun _ => HttpOutcome.success (String.mk [lbrace, rbrace])) =
      ("", Res.raised (PyError.keyError "name")) :=
  ⟨rfl, rfl, rfl⟩

/-- C10: the text `print_result` writes depends only on the payload's `name`,
`sys.country`, `weather[0].description` and `main.temp` accesses and on the imperial
flag: two payloads on which those four accesses agree produce identical results,
regardless of any other fields. -/
theorem print_result_depends_only_on_fields (p1 p2 : Json) (imperial : Bool)
    (h1 : pathName p1 = pathName p2) (h2 : pathCountry p1 = pathCountry p2)
    (h3 : pathDesc p1 = pathDesc p2) (h4 : pathTemp p1 = pathTemp p2) :
    print_result p1 imperial = print_result p2 imperial := by
  simp only [print_result, extract4, h1, h2, h3, h4]

/-- The Paris payload extended with an extra field the presenter does not read. -/
def parisPayloadExtra : Json :=
  Json.obj [("name", Json.str "Paris"),
            ("sys", Json.obj [("country", Json.str "FR")]),
            ("weather", Json.arr [Json.obj [("description", Json.str "clear sky")]]),
            ("main", Json.obj [("temp", Json.num "18.5")]),
            ("extra", Json.num "42")]

/-- C10 witness: the theorem applied to the Paris payload and the Paris payload
extended with an extra field, on which the four accesses agree. -/
theorem print_result_depends_only_on_fields_witness :
    pathName parisPayload = pathName parisPayloadExtra ∧
    pathCountry parisPayload = pathCountry parisPayloadExtra ∧
    pathDesc parisPayload = pathDesc parisPayloadExtra ∧
    pathTemp parisPayload = pathTemp parisPayloadExtra ∧
    print_result parisPayload false = print_result parisPayloadExtra false :=
  ⟨rfl, rfl, rfl, rfl,
    print_result_depends_only_on_fields parisPayload parisPayloadExtra false
      rfl rfl rfl rfl⟩
